import Mathlib

/-!
# ChatApp backend: message relay, private chats and authentication

A shallow embedding of `index.js` (Express + socket.io + mongoose) and of the
models it uses.  The database is an explicit `Store` value, every handler is a
function from the store and the request to the new store, the socket.io events
it emitted and its reply.  Every awaited database call and every `emit` may
throw; what it throws is an input (`Env`), so that the `try`/`catch` blocks of
the handlers are modelled in full.

Identifiers (`_id`, `req.user.id`, `chatId`, room names) are values of a single
type `ObjectId`.  The JavaScript `!==` of the REST send handler compares a
stored participant id with `req.user.id`, a string taken from the token.  The
`Chat` schema is not among the sources: if it stores participants as strings
`!==` is disequality of identifiers, if it stores them as `ObjectId` objects
`!==` holds of every pair.  Which of the two is an input (`Env.objectIdUsers`).
-/

namespace ChatApp

/-- Identifiers of documents and of socket.io rooms. -/
abbrev ObjectId := Nat

/-- The decoded token: `{ id, username }` as signed by `/login`. -/
structure Principal where
  id : ObjectId
  username : String
deriving DecidableEq, Repr

/-- The `User` model of `models/User.js`. -/
structure User where
  id : ObjectId
  username : String
  email : String
  password : String
deriving DecidableEq, Repr

/-- Modelled from the spec: the `Chat` model (`./models/Chat` is required by
`index.js` but its schema is not among the sources).  The fields are the ones
the handlers read and write (`isGroupChat`, `users`, `latestMessage`) and the
last-updated timestamp of the spec's data model, which `/chats/recent` sorts
on. -/
structure Chat where
  id : ObjectId
  isGroupChat : Bool
  users : List ObjectId
  latestMessage : Option ObjectId
  updatedAt : Nat
deriving DecidableEq, Repr

/-- Modelled from the spec: the `Message` model (`./models/Message` is required
by `index.js` but its schema is not among the sources):
`{id, senderId, conversationId, content, createdAt}`. -/
structure Message where
  id : ObjectId
  sender : ObjectId
  content : String
  chat : ObjectId
  createdAt : Nat
deriving DecidableEq, Repr

/-- The `Group` model of `models/Group.js`. -/
structure Group where
  id : ObjectId
  name : String
  users : List ObjectId
  isGroupChat : Bool
  latestMessage : Option ObjectId
deriving DecidableEq, Repr

/-- The collections of the database. -/
structure Store where
  users : List User
  chats : List Chat
  messages : List Message
  groups : List Group
deriving DecidableEq, Repr

/-- What the environment supplies to one run of a handler: the `_id` that
`new Model(...)` generates, the clock, for every awaited store call and
every `emit` the error it throws (`none`: it completes), and whether the `Chat`
schema (not among the sources) stores the participants as `ObjectId` objects
(`objectIdUsers = true`) or as strings. -/
structure Env where
  newId : ObjectId
  now : Nat
  userFind : Option String
  chatFind : Option String
  msgFind : Option String
  msgSave : Option String
  chatSave : Option String
  groupFind : Option String
  groupSave : Option String
  broadcast : Option String
  notify : Option String
  objectIdUsers : Bool
deriving DecidableEq, Repr

/-- A run in which no store call and no `emit` throws. -/
def Env.faultFree (e : Env) : Prop :=
  e.userFind = none ∧ e.chatFind = none ∧ e.msgFind = none ∧ e.msgSave = none ∧
    e.chatSave = none ∧ e.groupFind = none ∧ e.groupSave = none ∧
    e.broadcast = none ∧ e.notify = none

instance (e : Env) : Decidable e.faultFree := by
  unfold Env.faultFree; infer_instance

/-- The denormalised sender `{ _id, username }`. -/
structure SenderSummary where
  id : ObjectId
  username : String
deriving DecidableEq, Repr

/-- The payload of `receiveMessage`:
`{ ...newMessage.toObject(), sender: { _id, username } }`. -/
structure MessagePayload where
  id : ObjectId
  sender : SenderSummary
  content : String
  chat : ObjectId
  createdAt : Nat
deriving DecidableEq, Repr

/-- The socket.io events a handler emits.  `io.to(room).emit(...)` carries its
room; the room of `newNotification` is the result of an `Array.find` and is
`none` when that is `undefined` (with `ObjectId` participants the key is the
object of that identifier).  `error` is `socket.emit('error', ...)`, sent
to the originating socket only. -/
inductive Emit where
  | receiveMessage (room : ObjectId) (payload : MessagePayload)
  | newNotification (room : Option ObjectId) (message : String)
  | error (reason : String)
deriving DecidableEq, Repr

/-- A message of a history reply: `sender` populated with `username`
(`null` when no user document has that id). -/
structure PopulatedMessage where
  id : ObjectId
  sender : Option SenderSummary
  content : String
  chat : ObjectId
  createdAt : Nat
deriving DecidableEq, Repr

/-- The JSON bodies the handlers reply with. -/
inductive Body where
  | message (text : String)
  | failure (text : String) (error : String)
  | chat (c : Chat)
  | sent (text : String) (newMessage : Message)
  | messages (ms : List PopulatedMessage)
  | group (g : Group)
  | groups (gs : List Group)
deriving DecidableEq, Repr

/-- The reply of a REST handler: status code and body. -/
structure Response where
  status : Nat
  body : Body
deriving DecidableEq, Repr

/-- The result of one run of a REST handler. -/
structure Outcome where
  store : Store
  emits : List Emit
  response : Response
deriving DecidableEq, Repr

/-- The reply of the `catch` blocks:
`res.status(500).json({ message: "Something went wrong", error: error.message })`. -/
def serverError (st : Store) (emits : List Emit) (error : String) : Outcome :=
  ⟨st, emits, ⟨500, Body.failure "Something went wrong" error⟩⟩

/-- The payload `{ ...newMessage.toObject(), sender: { _id: user.id, username: user.username } }`. -/
def toPayload (m : Message) (user : Principal) : MessagePayload :=
  ⟨m.id, ⟨user.id, user.username⟩, m.content, m.chat, m.createdAt⟩

/-- The effect of `chat.save()` after `chat.latestMessage = newMessage._id`:
the stored document with the chat's `_id` is replaced. -/
def saveChat (chats : List Chat) (chat : Chat) : List Chat :=
  chats.map (fun c => if c.id = chat.id then chat else c)

/-- The comparison `userId !== req.user.id` of the REST send handler, between a
stored participant id and the string of the token: always true when the
participants are `ObjectId` objects, disequality of the identifiers when they
are strings. -/
def strictNotEqual (env : Env) (userId requester : ObjectId) : Bool :=
  env.objectIdUsers || userId != requester

/-- The query of the REST send handler:
`Chat.findOne({ _id: chatId, isGroupChat: false, users: req.user.id })`. -/
def findPrivateChatOf (st : Store) (chatId userId : ObjectId) : Option Chat :=
  st.chats.find? (fun c => c.id == chatId && !c.isGroupChat && c.users.contains userId)

/-- The query `Chat.findById(chatId)`. -/
def findChatById (st : Store) (chatId : ObjectId) : Option Chat :=
  st.chats.find? (fun c => c.id == chatId)

/-- The handler of `POST /chats/private/:chatId/messages` (after `authenticate`). -/
def postPrivateMessage (env : Env) (st : Store) (user : Principal)
    (chatId : ObjectId) (text : String) : Outcome :=
  match env.chatFind with
  | some e => serverError st [] e
  | none =>
    match findPrivateChatOf st chatId user.id with
    | none => ⟨st, [], ⟨404, Body.message "Chat not found"⟩⟩
    | some chat =>
      let newMessage : Message := ⟨env.newId, user.id, text, chatId, env.now⟩
      match env.msgSave with
      | some e => serverError st [] e
      | none =>
        let st1 : Store := { st with messages := st.messages ++ [newMessage] }
        match env.chatSave with
        | some e => serverError st1 [] e
        | none =>
          let saved : Chat :=
            { chat with latestMessage := some newMessage.id, updatedAt := env.now }
          let st2 : Store := { st1 with chats := saveChat st1.chats saved }
          let recipientId := chat.users.find? (fun userId => strictNotEqual env userId user.id)
          match env.broadcast with
          | some e => serverError st2 [] e
          | none =>
            let received := Emit.receiveMessage chatId (toPayload newMessage user)
            match env.notify with
            | some e => serverError st2 [received] e
            | none =>
              ⟨st2, [received, Emit.newNotification recipientId "You have a new message."],
                ⟨200, Body.sent "Message sent successfully" newMessage⟩⟩

/-- How a run of the socket `sendMessage` handler ended: it ran to its end, it
returned after `socket.emit('error', 'Chat not found')`, or an exception reached
the `catch`, which only writes `console.error`. -/
inductive Completion where
  | completed
  | chatNotFound
  | caught (error : String)
deriving DecidableEq, Repr

/-- The result of one run of the socket `sendMessage` handler. -/
structure SocketOutcome where
  store : Store
  emits : List Emit
  completion : Completion
deriving DecidableEq, Repr

/-- The handler of the socket event `sendMessage` for `socket.user = user` and
the message `{ content, chatId }`. -/
def onSendMessage (env : Env) (st : Store) (user : Principal)
    (content : String) (chatId : ObjectId) : SocketOutcome :=
  match env.chatFind with
  | some e => ⟨st, [], Completion.caught e⟩
  | none =>
    match findChatById st chatId with
    | none => ⟨st, [Emit.error "Chat not found"], Completion.chatNotFound⟩
    | some chat =>
      let newMessage : Message := ⟨env.newId, user.id, content, chatId, env.now⟩
      match env.msgSave with
      | some e => ⟨st, [], Completion.caught e⟩
      | none =>
        let st1 : Store := { st with messages := st.messages ++ [newMessage] }
        match env.chatSave with
        | some e => ⟨st1, [], Completion.caught e⟩
        | none =>
          let saved : Chat :=
            { chat with latestMessage := some newMessage.id, updatedAt := env.now }
          let st2 : Store := { st1 with chats := saveChat st1.chats saved }
          match env.broadcast with
          | some e => ⟨st2, [], Completion.caught e⟩
          | none =>
            ⟨st2, [Emit.receiveMessage chatId (toPayload newMessage user)],
              Completion.completed⟩

/-- The `populate("sender", "username")` of the history query: the sender id is
replaced by the user document's `{ _id, username }`, by `null` when there is no
such user. -/
def populateSender (users : List User) (m : Message) : PopulatedMessage :=
  ⟨m.id, (users.find? (fun u => u.id == m.sender)).map (fun u => ⟨u.id, u.username⟩),
    m.content, m.chat, m.createdAt⟩

/-- The handler of `GET /chats/:chatId/messages` (after `authenticate`). -/
def getChatMessages (env : Env) (st : Store) (chatId : ObjectId) : Outcome :=
  match env.chatFind with
  | some e => serverError st [] e
  | none =>
    match findChatById st chatId with
    | none => ⟨st, [], ⟨404, Body.message "Chat not found"⟩⟩
    | some _ =>
      match env.msgFind with
      | some e => serverError st [] e
      | none =>
        ⟨st, [], ⟨200, Body.messages
          ((st.messages.filter (fun m => m.chat == chatId)).map (populateSender st.users))⟩⟩

/-- The query of `POST /chats/private`:
`Chat.findOne({ isGroupChat: false, users: { $all: [req.user.id, recipientId] } })`. -/
def findChatBetween (st : Store) (userId recipientId : ObjectId) : Option Chat :=
  st.chats.find? (fun c => !c.isGroupChat && [userId, recipientId].all (fun u => c.users.contains u))

/-- The handler of `POST /chats/private` (after `authenticate`). -/
def postPrivateChat (env : Env) (st : Store) (user : Principal)
    (recipientId : ObjectId) : Outcome :=
  match env.userFind with
  | some e => serverError st [] e
  | none =>
    match st.users.find? (fun u => u.id == recipientId) with
    | none => ⟨st, [], ⟨404, Body.message "Recipient not found"⟩⟩
    | some _ =>
      match env.chatFind with
      | some e => serverError st [] e
      | none =>
        match findChatBetween st user.id recipientId with
        | some existingChat => ⟨st, [], ⟨200, Body.chat existingChat⟩⟩
        | none =>
          let chat : Chat := ⟨env.newId, false, [user.id, recipientId], none, env.now⟩
          match env.chatSave with
          | some e => serverError st [] e
          | none => ⟨{ st with chats := st.chats ++ [chat] }, [], ⟨200, Body.chat chat⟩⟩

/-- JavaScript `String.prototype.split` with a one-character separator, on the
characters of the string. -/
def jsSplit (sep : Char) : List Char → List (List Char)
  | [] => [[]]
  | c :: cs =>
    if c = sep then [] :: jsSplit sep cs
    else
      match jsSplit sep cs with
      | [] => [[c]]
      | w :: ws => (c :: w) :: ws

/-- What a middleware did with a request: it answered with an error, or it
attached the decoded principal and called `next()`. -/
inductive AuthResult where
  | rejected (status : Nat) (message : String)
  | next (user : Principal)
deriving DecidableEq, Repr

/-- The principal a middleware attached, if it accepted. -/
def AuthResult.user? : AuthResult → Option Principal
  | AuthResult.rejected _ _ => none
  | AuthResult.next user => some user

/-- The Express middleware `authenticate`, for the value of the `authorization`
header; `verify` is `jwt.verify(·, JWT_SECRET)`, `none` when it passes an error
to its callback. -/
def authenticate (verify : String → Option Principal)
    (authorization : Option String) : AuthResult :=
  match authorization with
  | none => AuthResult.rejected 401 "User Not Authorized"
  | some authHeader =>
    if authHeader = "" ∨ ("Bearer ".data.isPrefixOf authHeader.data) = false then
      AuthResult.rejected 401 "User Not Authorized"
    else
      match (jsSplit ' ' authHeader.data)[1]? with
      | none => AuthResult.rejected 401 "Invalid Token"
      | some token =>
        match verify (String.mk token) with
        | none => AuthResult.rejected 401 "Invalid Token"
        | some user => AuthResult.next user

/-- What the socket.io middleware did with a handshake: `next(new Error(...))`,
or `socket.user = decoded; next()`. -/
inductive HandshakeResult where
  | error (message : String)
  | next (user : Principal)
deriving DecidableEq, Repr

/-- The principal the handshake attached, if it accepted. -/
def HandshakeResult.user? : HandshakeResult → Option Principal
  | HandshakeResult.error _ => none
  | HandshakeResult.next user => some user

/-- The socket.io middleware (`io.use`), for `socket.handshake.query.token`. -/
def socketAuthenticate (verify : String → Option Principal)
    (token : Option String) : HandshakeResult :=
  match token with
  | none => HandshakeResult.error "Authentication error"
  | some t =>
    if t = "" then HandshakeResult.error "Authentication error"
    else
      match verify t with
      | none => HandshakeResult.error "Authentication error"
      | some decoded => HandshakeResult.next decoded

/-- The model identifiers `index.js` uses. -/
inductive ModelName where
  | Chat
  | Message
  | User
  | Group
deriving DecidableEq, Repr

/-- The name of a model identifier as written in the source. -/
def ModelName.text : ModelName → String
  | ModelName.Chat => "Chat"
  | ModelName.Message => "Message"
  | ModelName.User => "User"
  | ModelName.Group => "Group"

/-- The model identifiers bound at the top of `index.js`:
`const Chat = require("./models/Chat")`, `const Message = ...`,
`const User = ...`.  There is no binding of `Group`. -/
def boundModels : List ModelName :=
  [ModelName.Chat, ModelName.Message, ModelName.User]

/-- Evaluating a model identifier: a `ReferenceError` when it is not bound. -/
def resolve (m : ModelName) : Except String Unit :=
  if m ∈ boundModels then Except.ok () else Except.error (m.text ++ " is not defined")

/-- The handler of `POST /groups` (after `authenticate`). -/
def postGroups (env : Env) (st : Store) (user : Principal) (name : String) : Outcome :=
  match resolve ModelName.Group with
  | Except.error e => serverError st [] e
  | Except.ok _ =>
    let group : Group := ⟨env.newId, name, [user.id], true, none⟩
    match env.groupSave with
    | some e => serverError st [] e
    | none => ⟨{ st with groups := st.groups ++ [group] }, [], ⟨200, Body.group group⟩⟩

/-- The effect of `group.users.addToSet(id)`. -/
def addToSet (users : List ObjectId) (id : ObjectId) : List ObjectId :=
  if users.contains id then users else users ++ [id]

/-- The handler of `POST /groups/:groupId/join` (after `authenticate`). -/
def postGroupJoin (env : Env) (st : Store) (user : Principal) (groupId : ObjectId) : Outcome :=
  match resolve ModelName.Group with
  | Except.error e => serverError st [] e
  | Except.ok _ =>
    match env.groupFind with
    | some e => serverError st [] e
    | none =>
      match st.groups.find? (fun g => g.id == groupId) with
      | none => ⟨st, [], ⟨404, Body.message "Group not found"⟩⟩
      | some group =>
        let joined : Group := { group with users := addToSet group.users user.id }
        match env.groupSave with
        | some e => serverError st [] e
        | none =>
          ⟨{ st with groups := st.groups.map (fun g => if g.id = joined.id then joined else g) },
            [], ⟨200, Body.group joined⟩⟩

/-- The handler of `GET /groups` (after `authenticate`). -/
def getGroups (env : Env) (st : Store) (user : Principal) : Outcome :=
  match resolve ModelName.Group with
  | Except.error e => serverError st [] e
  | Except.ok _ =>
    match env.groupFind with
    | some e => serverError st [] e
    | none => ⟨st, [], ⟨200, Body.groups (st.groups.filter (fun g => g.users.contains user.id))⟩⟩

/-- The events of a run that are `receiveMessage`. -/
def receiveMessages (emits : List Emit) : List Emit :=
  emits.filter (fun e => match e with | Emit.receiveMessage _ _ => true | _ => false)

/-- The rooms a run emitted `newNotification` to. -/
def notifiedRooms : List Emit → List (Option ObjectId)
  | [] => []
  | Emit.newNotification room _ :: es => room :: notifiedRooms es
  | _ :: es => notifiedRooms es

/-! ## Sample data -/

/-- The principal of user 1. -/
def alice : Principal := ⟨1, "alice"⟩

/-- The principal of user 3, who takes part in no chat of `sampleStore`. -/
def carol : Principal := ⟨3, "carol"⟩

/-- A run in which nothing throws; the generated `_id` is 100, the clock reads
7, the participants of a chat are stored as strings. -/
def quietEnv : Env := ⟨100, 7, none, none, none, none, none, none, none, none, none, false⟩

/-- The run `quietEnv` with the participants of a chat stored as `ObjectId` objects. -/
def quietObjectIdEnv : Env := { quietEnv with objectIdUsers := true }

/-- The principal of a token whose user id 4 has no user document in the samples. -/
def dave : Principal := ⟨4, "dave"⟩


/-- Three users and the private chat 10 between users 1 and 2. -/
def sampleStore : Store :=
  ⟨[⟨1, "alice", "alice@example.org", "h1"⟩, ⟨2, "bob", "bob@example.org", "h2"⟩,
    ⟨3, "carol", "carol@example.org", "h3"⟩],
   [⟨10, false, [1, 2], none, 0⟩], [], []⟩

/-- The users of `sampleStore` and the private chat 20 between users 4 and 1. -/
def orphanStore : Store := { sampleStore with chats := [⟨20, false, [4, 1], none, 0⟩] }

/-- The store `sampleStore` with one earlier message of bob in chat 10. -/
def earlierStore : Store := { sampleStore with messages := [⟨50, 2, "yo", 10, 3⟩] }

/-- A run in which `newMessage.save()` throws. -/
def messageSaveFails : Env := { quietEnv with msgSave := some "write failed" }

/-- A run in which `chat.save()` throws. -/
def chatSaveFails : Env := { quietEnv with chatSave := some "write failed" }

/-- A verifier that accepts the credential `tok` only, as alice's. -/
def onlyTok (credential : String) : Option Principal :=
  if credential = "tok" then some alice else none

/-- A verifier that accepts every credential as alice's. -/
def acceptAll (_credential : String) : Option Principal :=
  some alice

/-! ## Lemmas on the store queries -/

theorem findPrivateChatOf_eq_none {st : Store} {chatId userId : ObjectId}
    (h : ∀ c ∈ st.chats, c.id = chatId → userId ∉ c.users) :
    findPrivateChatOf st chatId userId = none := by
  unfold findPrivateChatOf
  rw [List.find?_eq_none]
  intro c hc
  by_cases hid : c.id = chatId
  · have := h c hc hid
    simp [this]
  · simp [hid]

theorem findPrivateChatOf_some {st : Store} {chatId userId : ObjectId} {chat : Chat}
    (h : findPrivateChatOf st chatId userId = some chat) :
    chat ∈ st.chats ∧ chat.id = chatId ∧ chat.isGroupChat = false ∧ userId ∈ chat.users := by
  unfold findPrivateChatOf at h
  have hp := List.find?_some h
  have hm := List.mem_of_find?_eq_some h
  simp at hp
  exact ⟨hm, hp.1.1, hp.1.2, hp.2⟩

theorem findChatById_some {st : Store} {chatId : ObjectId} {chat : Chat}
    (h : findChatById st chatId = some chat) : chat ∈ st.chats ∧ chat.id = chatId := by
  unfold findChatById at h
  have hp := List.find?_some h
  have hm := List.mem_of_find?_eq_some h
  simp at hp
  exact ⟨hm, hp⟩

theorem findChatById_isSome {st : Store} {chatId : ObjectId} {chat : Chat}
    (hm : chat ∈ st.chats) (hid : chat.id = chatId) :
    ∃ c, findChatById st chatId = some c := by
  unfold findChatById
  cases h : st.chats.find? (fun c => c.id == chatId) with
  | some c => exact ⟨c, rfl⟩
  | none =>
    rw [List.find?_eq_none] at h
    have := h chat hm
    simp [hid] at this

theorem saveChat_has_id {chats : List Chat} {chat : Chat} (saved : Chat)
    (hm : chat ∈ chats) (hid : saved.id = chat.id) :
    ∃ c ∈ saveChat chats saved, c.id = chat.id := by
  refine ⟨saved, ?_, hid⟩
  unfold saveChat
  rw [List.mem_map]
  exact ⟨chat, hm, by simp [hid]⟩

/-! ## C1: sending to a conversation one is not a participant of -/

/-- C1 (as amended): in the REST handler `POST /chats/private/:chatId/messages`,
when the authenticated principal is a participant of no stored conversation
with the requested id, the store is unchanged, no event is emitted, the reply
is not a success, and it is `404 { message: "Chat not found" }` whenever the
lookup itself completes. -/
theorem rest_send_by_non_member (env : Env) (st : Store) (user : Principal)
    (chatId : ObjectId) (text : String)
    (hnot : ∀ c ∈ st.chats, c.id = chatId → user.id ∉ c.users) :
    (postPrivateMessage env st user chatId text).store = st ∧
      (postPrivateMessage env st user chatId text).emits = [] ∧
      (postPrivateMessage env st user chatId text).response.status ≠ 200 ∧
      (env.chatFind = none →
        (postPrivateMessage env st user chatId text).response =
          ⟨404, Body.message "Chat not found"⟩) := by
  have hq := findPrivateChatOf_eq_none hnot
  unfold postPrivateMessage
  cases hf : env.chatFind with
  | some e => simp [serverError]
  | none => simp [hq]

/-- C1, witness: carol is no participant of chat 10. -/
theorem rest_send_by_non_member_witness :
    (∀ c ∈ sampleStore.chats, c.id = 10 → carol.id ∉ c.users) ∧
      (postPrivateMessage quietEnv sampleStore carol 10 "hey").store = sampleStore ∧
      (postPrivateMessage quietEnv sampleStore carol 10 "hey").emits = [] ∧
      (postPrivateMessage quietEnv sampleStore carol 10 "hey").response.status ≠ 200 ∧
      (quietEnv.chatFind = none →
        (postPrivateMessage quietEnv sampleStore carol 10 "hey").response =
          ⟨404, Body.message "Chat not found"⟩) :=
  ⟨by decide, rest_send_by_non_member quietEnv sampleStore carol 10 "hey" (by decide)⟩

/-- C1, counterexample: carol (id 3) is not among the participants `[1, 2]` of
the existing chat 10.  The REST handler answers her with 404 "Chat not found",
which is not a Forbidden reply, and the socket handler stores her message and
broadcasts `receiveMessage` to the room of chat 10. -/
theorem non_member_send_not_forbidden :
    findChatById sampleStore 10 = some ⟨10, false, [1, 2], none, 0⟩ ∧
      carol.id ∉ [1, 2] ∧
      (postPrivateMessage quietEnv sampleStore carol 10 "hey").response =
        ⟨404, Body.message "Chat not found"⟩ ∧
      (onSendMessage quietEnv sampleStore carol "hey" 10).completion = Completion.completed ∧
      (onSendMessage quietEnv sampleStore carol "hey" 10).store.messages =
        [⟨100, 3, "hey", 10, 7⟩] ∧
      (onSendMessage quietEnv sampleStore carol "hey" 10).emits =
        [Emit.receiveMessage 10 ⟨100, ⟨3, "carol"⟩, "hey", 10, 7⟩] := by
  decide

/-! ## C2, C3: find-or-create of a private chat -/

theorem findChatBetween_comm (st : Store) (a b : ObjectId) :
    findChatBetween st a b = findChatBetween st b a := by
  unfold findChatBetween
  congr 1
  funext c
  simp only [List.all_cons, List.all_nil, Bool.and_true]
  rw [Bool.and_comm (c.users.contains a)]

theorem findChatBetween_some {st : Store} {a b : ObjectId} {chat : Chat}
    (h : findChatBetween st a b = some chat) :
    chat ∈ st.chats ∧ chat.isGroupChat = false ∧ a ∈ chat.users ∧ b ∈ chat.users := by
  unfold findChatBetween at h
  have hp := List.find?_some h
  have hm := List.mem_of_find?_eq_some h
  simp at hp
  exact ⟨hm, hp.1, hp.2.1, hp.2.2⟩

theorem findChatBetween_created {st : Store} {a b : ObjectId} (newId now : Nat)
    (h : findChatBetween st a b = none) :
    findChatBetween { st with chats := st.chats ++ [⟨newId, false, [a, b], none, now⟩] } a b =
      some ⟨newId, false, [a, b], none, now⟩ := by
  unfold findChatBetween at h ⊢
  show List.find? _ (st.chats ++ [_]) = _
  rw [List.find?_append, h]
  simp

theorem find_user_of_mem {users : List User} {id : ObjectId}
    (h : ∃ u ∈ users, u.id = id) : ∃ u, users.find? (fun u => u.id == id) = some u := by
  cases hf : users.find? (fun u => u.id == id) with
  | some u => exact ⟨u, rfl⟩
  | none =>
    rw [List.find?_eq_none] at hf
    obtain ⟨u, hu, hid⟩ := h
    have := hf u hu
    simp [hid] at this

/-- The reply of `POST /chats/private` when no call throws and the recipient
exists: the chat found, else the chat created. -/
theorem postPrivateChat_quiet {env : Env} {st : Store} (user : Principal) {recipientId : ObjectId}
    (hu : env.userFind = none) (hc : env.chatFind = none) (hs : env.chatSave = none)
    (hr : ∃ u ∈ st.users, u.id = recipientId) :
    postPrivateChat env st user recipientId =
      match findChatBetween st user.id recipientId with
      | some existingChat => ⟨st, [], ⟨200, Body.chat existingChat⟩⟩
      | none =>
        ⟨{ st with chats := st.chats ++ [⟨env.newId, false, [user.id, recipientId], none, env.now⟩] },
          [], ⟨200, Body.chat ⟨env.newId, false, [user.id, recipientId], none, env.now⟩⟩⟩ := by
  obtain ⟨u, hfu⟩ := find_user_of_mem hr
  unfold postPrivateChat
  simp only [hu, hc, hs, hfu]

/-- C2: when the two users exist and no store call throws, `POST /chats/private`
called by A for B answers with a conversation; called again by A for B on the
resulting store, or by B for A, it answers with the very same conversation and
leaves the store as it is. -/
theorem private_chat_idempotent (e1 e2 e3 : Env) (st : Store) (a b : Principal)
    (h1 : e1.faultFree) (h2 : e2.faultFree) (h3 : e3.faultFree)
    (ha : ∃ u ∈ st.users, u.id = a.id) (hb : ∃ u ∈ st.users, u.id = b.id) :
    ∃ c : Chat,
      (postPrivateChat e1 st a b.id).response = ⟨200, Body.chat c⟩ ∧
      postPrivateChat e2 (postPrivateChat e1 st a b.id).store a b.id =
        ⟨(postPrivateChat e1 st a b.id).store, [], ⟨200, Body.chat c⟩⟩ ∧
      postPrivateChat e3 (postPrivateChat e1 st a b.id).store b a.id =
        ⟨(postPrivateChat e1 st a b.id).store, [], ⟨200, Body.chat c⟩⟩ := by
  obtain ⟨h1u, h1c, -, -, h1s, -⟩ := h1
  obtain ⟨h2u, h2c, -, -, h2s, -⟩ := h2
  obtain ⟨h3u, h3c, -, -, h3s, -⟩ := h3
  rw [postPrivateChat_quiet a h1u h1c h1s hb]
  cases hf : findChatBetween st a.id b.id with
  | some existingChat =>
    refine ⟨existingChat, rfl, ?_, ?_⟩
    · rw [postPrivateChat_quiet a h2u h2c h2s hb]
      simp only [hf]
    · rw [postPrivateChat_quiet b h3u h3c h3s ha, findChatBetween_comm]
      simp only [hf]
  | none =>
    refine ⟨⟨e1.newId, false, [a.id, b.id], none, e1.now⟩, rfl, ?_, ?_⟩
    · rw [postPrivateChat_quiet a h2u h2c h2s (by simpa using hb)]
      simp only [findChatBetween_created e1.newId e1.now hf]
    · rw [postPrivateChat_quiet b h3u h3c h3s (by simpa using ha), findChatBetween_comm]
      simp only [findChatBetween_created e1.newId e1.now hf]

/-- C2, witness: alice asks for a chat with carol (none is stored yet), then
asks again, then carol asks for a chat with alice. -/
theorem private_chat_idempotent_witness :
    quietEnv.faultFree ∧ (∃ u ∈ sampleStore.users, u.id = alice.id) ∧
      (∃ u ∈ sampleStore.users, u.id = carol.id) ∧
      ∃ c : Chat,
        (postPrivateChat quietEnv sampleStore alice carol.id).response = ⟨200, Body.chat c⟩ ∧
        postPrivateChat quietEnv (postPrivateChat quietEnv sampleStore alice carol.id).store
            alice carol.id =
          ⟨(postPrivateChat quietEnv sampleStore alice carol.id).store, [],
            ⟨200, Body.chat c⟩⟩ ∧
        postPrivateChat quietEnv (postPrivateChat quietEnv sampleStore alice carol.id).store
            carol alice.id =
          ⟨(postPrivateChat quietEnv sampleStore alice carol.id).store, [],
            ⟨200, Body.chat c⟩⟩ :=
  ⟨by decide, by decide, by decide,
    private_chat_idempotent quietEnv quietEnv quietEnv sampleStore alice carol
      (by decide) (by decide) (by decide) (by decide) (by decide)⟩

theorem pair_of_length_two {users : List ObjectId} {a b : ObjectId}
    (hlen : users.length = 2) (ha : a ∈ users) (hb : b ∈ users) (hab : a ≠ b) :
    ∀ x, x ∈ users ↔ x = a ∨ x = b := by
  match users, hlen with
  | [p, q], _ =>
    simp only [List.mem_cons, List.mem_singleton, List.not_mem_nil, or_false] at ha hb ⊢
    intro x
    rcases ha with ha | ha <;> rcases hb with hb | hb <;> subst ha <;> subst hb
    · exact absurd rfl hab
    · rfl
    · exact or_comm
    · exact absurd rfl hab

/-- C3 (as amended): in a store whose non-group chats all have two participants
(the shape `POST /chats/private` creates), for a caller A and a recipient B
other than A, the conversation `POST /chats/private` answers with is a
non-group chat of two participants, A and B and no other user. -/
theorem private_chat_is_between_pair (env : Env) (st : Store) (user : Principal)
    (recipientId : ObjectId) (c : Chat)
    (hinv : ∀ x ∈ st.chats, x.isGroupChat = false → x.users.length = 2)
    (hne : user.id ≠ recipientId)
    (hres : (postPrivateChat env st user recipientId).response = ⟨200, Body.chat c⟩) :
    c.isGroupChat = false ∧ c.users.length = 2 ∧
      ∀ x, x ∈ c.users ↔ x = user.id ∨ x = recipientId := by
  unfold postPrivateChat at hres
  split at hres
  · simp [serverError] at hres
  · split at hres
    · simp at hres
    · split at hres
      · simp [serverError] at hres
      · split at hres
        · rename_i existingChat hfound
          simp only [Response.mk.injEq, Body.chat.injEq, true_and] at hres
          subst hres
          obtain ⟨hm, hg, ha, hb⟩ := findChatBetween_some hfound
          exact ⟨hg, hinv _ hm hg, pair_of_length_two (hinv _ hm hg) ha hb hne⟩
        · split at hres
          · simp [serverError] at hres
          · simp only [Response.mk.injEq, Body.chat.injEq, true_and] at hres
            subst hres
            simp

/-- C3, witness: alice asks for her chat with bob. -/
theorem private_chat_is_between_pair_witness :
    (∀ x ∈ sampleStore.chats, x.isGroupChat = false → x.users.length = 2) ∧
      alice.id ≠ 2 ∧
      (postPrivateChat quietEnv sampleStore alice 2).response =
        ⟨200, Body.chat ⟨10, false, [1, 2], none, 0⟩⟩ ∧
      ((⟨10, false, [1, 2], none, 0⟩ : Chat).isGroupChat = false ∧
        (⟨10, false, [1, 2], none, 0⟩ : Chat).users.length = 2 ∧
        ∀ x, x ∈ (⟨10, false, [1, 2], none, 0⟩ : Chat).users ↔ x = alice.id ∨ x = 2) :=
  ⟨by decide, by decide, by decide,
    private_chat_is_between_pair quietEnv sampleStore alice 2 ⟨10, false, [1, 2], none, 0⟩
      (by decide) (by decide) (by decide)⟩

/-- C3, counterexample.  With recipient = caller: alice (id 1) has the private
chat 10 with bob (id 2); she asks for a private chat with herself and is
answered with chat 10, which has the participant 2.  With a stored non-group
chat of three participants: alice asks for a chat with bob and is answered with
a chat that has the participant 3 as well. -/
theorem private_chat_not_between_pair :
    ((postPrivateChat quietEnv sampleStore alice 1).response =
        ⟨200, Body.chat ⟨10, false, [1, 2], none, 0⟩⟩ ∧
      ¬ (∀ x, x ∈ (⟨10, false, [1, 2], none, 0⟩ : Chat).users ↔ x = alice.id ∨ x = 1)) ∧
    ((postPrivateChat quietEnv
          { sampleStore with chats := [⟨11, false, [1, 2, 3], none, 0⟩] } alice 2).response =
        ⟨200, Body.chat ⟨11, false, [1, 2, 3], none, 0⟩⟩ ∧
      ¬ (∀ x, x ∈ (⟨11, false, [1, 2, 3], none, 0⟩ : Chat).users ↔ x = alice.id ∨ x = 2)) := by
  refine ⟨⟨by decide, fun h => ?_⟩, ⟨by decide, fun h => ?_⟩⟩
  · have := (h 2).1 (by decide)
    revert this
    decide
  · have := (h 3).1 (by decide)
    revert this
    decide

/-! ## C5, C7: the steps after the message write -/

/-- C5 (as amended): in the REST send handler, once the conversation was found
and `newMessage.save()` succeeded, the message is stored; the caller receives
the success reply carrying it exactly when `chat.save()`, the broadcast and the
notification all complete; when `chat.save()` throws, or the broadcast throws,
the caller receives status 500 and no event was emitted; when the notification
throws the caller receives status 500 after the broadcast. -/
theorem rest_send_after_write (env : Env) (st : Store) (user : Principal)
    (chatId : ObjectId) (text : String) (chat : Chat)
    (hfind : env.chatFind = none)
    (hchat : findPrivateChatOf st chatId user.id = some chat)
    (hsave : env.msgSave = none) :
    (postPrivateMessage env st user chatId text).store.messages =
        st.messages ++ [⟨env.newId, user.id, text, chatId, env.now⟩] ∧
      ((postPrivateMessage env st user chatId text).response =
          ⟨200, Body.sent "Message sent successfully"
            ⟨env.newId, user.id, text, chatId, env.now⟩⟩ ↔
        env.chatSave = none ∧ env.broadcast = none ∧ env.notify = none) ∧
      (∀ e, env.chatSave = some e →
        (postPrivateMessage env st user chatId text).response =
            ⟨500, Body.failure "Something went wrong" e⟩ ∧
          (postPrivateMessage env st user chatId text).emits = []) ∧
      (∀ e, env.chatSave = none → env.broadcast = some e →
        (postPrivateMessage env st user chatId text).response =
            ⟨500, Body.failure "Something went wrong" e⟩ ∧
          (postPrivateMessage env st user chatId text).emits = []) ∧
      (∀ e, env.chatSave = none → env.broadcast = none → env.notify = some e →
        (postPrivateMessage env st user chatId text).response =
            ⟨500, Body.failure "Something went wrong" e⟩ ∧
          (postPrivateMessage env st user chatId text).emits =
            [Emit.receiveMessage chatId
              ⟨env.newId, ⟨user.id, user.username⟩, text, chatId, env.now⟩]) := by
  unfold postPrivateMessage
  simp only [hfind, hchat, hsave]
  cases env.chatSave <;> cases env.broadcast <;> cases env.notify <;>
    simp [serverError, toPayload]

/-- C5, witness: alice sends "hi" to chat 10 and nothing throws; the message is
stored and, the later steps having completed, the reply is the success reply. -/
theorem rest_send_after_write_witness :
    quietEnv.chatFind = none ∧
      findPrivateChatOf sampleStore 10 alice.id = some ⟨10, false, [1, 2], none, 0⟩ ∧
      quietEnv.msgSave = none ∧
      (postPrivateMessage quietEnv sampleStore alice 10 "hi").store.messages =
        sampleStore.messages ++ [⟨quietEnv.newId, alice.id, "hi", 10, quietEnv.now⟩] ∧
      (postPrivateMessage quietEnv sampleStore alice 10 "hi").response =
        ⟨200, Body.sent "Message sent successfully"
          ⟨quietEnv.newId, alice.id, "hi", 10, quietEnv.now⟩⟩ :=
  ⟨by decide, by decide, by decide,
    (rest_send_after_write quietEnv sampleStore alice 10 "hi" ⟨10, false, [1, 2], none, 0⟩
      (by decide) (by decide) (by decide)).1,
    (rest_send_after_write quietEnv sampleStore alice 10 "hi" ⟨10, false, [1, 2], none, 0⟩
      (by decide) (by decide) (by decide)).2.1.2 (by decide)⟩

/-- C5, counterexample: alice sends "hi" to her chat 10, `newMessage.save()`
succeeds (the message is in the store) and `chat.save()` throws: the caller
receives status 500, not the success reply, and no `receiveMessage` is
broadcast. -/
theorem failure_after_write_is_surfaced :
    chatSaveFails.msgSave = none ∧
      (postPrivateMessage chatSaveFails sampleStore alice 10 "hi").store.messages =
        [⟨100, 1, "hi", 10, 7⟩] ∧
      (postPrivateMessage chatSaveFails sampleStore alice 10 "hi").response =
        ⟨500, Body.failure "Something went wrong" "write failed"⟩ ∧
      (postPrivateMessage chatSaveFails sampleStore alice 10 "hi").emits = [] := by
  decide

/-- C7: a REST send answered with status 200, and a socket send that ran to
its end, emitted exactly one `receiveMessage`, to the room of the conversation;
its payload has the identifier, content, chat and timestamp of the message that
was stored, and the sender `{ _id, username }` of the principal. -/
theorem broadcast_payload (env : Env) (st : Store) (user : Principal)
    (chatId : ObjectId) (content : String) :
    ((postPrivateMessage env st user chatId content).response.status = 200 →
      receiveMessages (postPrivateMessage env st user chatId content).emits =
          [Emit.receiveMessage chatId
            ⟨env.newId, ⟨user.id, user.username⟩, content, chatId, env.now⟩] ∧
        (postPrivateMessage env st user chatId content).store.messages =
          st.messages ++ [⟨env.newId, user.id, content, chatId, env.now⟩]) ∧
    ((onSendMessage env st user content chatId).completion = Completion.completed →
      receiveMessages (onSendMessage env st user content chatId).emits =
          [Emit.receiveMessage chatId
            ⟨env.newId, ⟨user.id, user.username⟩, content, chatId, env.now⟩] ∧
        (onSendMessage env st user content chatId).store.messages =
          st.messages ++ [⟨env.newId, user.id, content, chatId, env.now⟩]) := by
  constructor
  · unfold postPrivateMessage
    cases env.chatFind <;> cases findPrivateChatOf st chatId user.id <;>
      cases env.msgSave <;> cases env.chatSave <;> cases env.broadcast <;>
      cases env.notify <;> simp [serverError, toPayload, receiveMessages]
  · unfold onSendMessage
    cases env.chatFind <;> cases findChatById st chatId <;>
      cases env.msgSave <;> cases env.chatSave <;> cases env.broadcast <;>
      simp [toPayload, receiveMessages]

/-- C7, witness: alice sends "hi" to chat 10 over REST and over the socket. -/
theorem broadcast_payload_witness :
    ((postPrivateMessage quietEnv sampleStore alice 10 "hi").response.status = 200 ∧
      receiveMessages (postPrivateMessage quietEnv sampleStore alice 10 "hi").emits =
        [Emit.receiveMessage 10
          ⟨quietEnv.newId, ⟨alice.id, alice.username⟩, "hi", 10, quietEnv.now⟩]) ∧
    ((onSendMessage quietEnv sampleStore alice "hi" 10).completion = Completion.completed ∧
      receiveMessages (onSendMessage quietEnv sampleStore alice "hi" 10).emits =
        [Emit.receiveMessage 10
          ⟨quietEnv.newId, ⟨alice.id, alice.username⟩, "hi", 10, quietEnv.now⟩]) :=
  ⟨⟨by decide, ((broadcast_payload quietEnv sampleStore alice 10 "hi").1 (by decide)).1⟩,
    ⟨by decide, ((broadcast_payload quietEnv sampleStore alice 10 "hi").2 (by decide)).1⟩⟩

/-! ## C9: a written message is in the history -/

theorem getChatMessages_found {env : Env} {st : Store} {chatId : ObjectId}
    (hc : env.chatFind = none) (hm : env.msgFind = none)
    (hex : ∃ c ∈ st.chats, c.id = chatId) :
    getChatMessages env st chatId =
      ⟨st, [], ⟨200, Body.messages
        ((st.messages.filter (fun m => m.chat == chatId)).map (populateSender st.users))⟩⟩ := by
  obtain ⟨c, hmem, hid⟩ := hex
  obtain ⟨c', hc'⟩ := findChatById_isSome hmem hid
  unfold getChatMessages
  simp only [hc, hm, hc']

theorem rest_store_after_write (env : Env) (st : Store) (user : Principal)
    (chatId : ObjectId) (text : String) {chat : Chat}
    (hfind : env.chatFind = none)
    (hchat : findPrivateChatOf st chatId user.id = some chat)
    (hsave : env.msgSave = none) :
    (postPrivateMessage env st user chatId text).store.users = st.users ∧
      (postPrivateMessage env st user chatId text).store.messages =
        st.messages ++ [⟨env.newId, user.id, text, chatId, env.now⟩] ∧
      ∃ c ∈ (postPrivateMessage env st user chatId text).store.chats, c.id = chatId := by
  obtain ⟨hmem, hid, -, -⟩ := findPrivateChatOf_some hchat
  have hkept : ∃ c ∈ st.chats, c.id = chatId := ⟨chat, hmem, hid⟩
  have hsaved : ∃ c ∈ saveChat st.chats
      { chat with latestMessage := some env.newId, updatedAt := env.now }, c.id = chatId := by
    obtain ⟨c, hc, hcid⟩ := saveChat_has_id
      { chat with latestMessage := some env.newId, updatedAt := env.now } hmem rfl
    exact ⟨c, hc, hcid.trans hid⟩
  unfold postPrivateMessage
  simp only [hfind, hchat, hsave]
  cases env.chatSave <;> cases env.broadcast <;> cases env.notify <;>
    exact ⟨rfl, rfl, by assumption⟩

theorem socket_store_after_write (env : Env) (st : Store) (user : Principal)
    (chatId : ObjectId) (content : String) {chat : Chat}
    (hfind : env.chatFind = none)
    (hchat : findChatById st chatId = some chat)
    (hsave : env.msgSave = none) :
    (onSendMessage env st user content chatId).store.users = st.users ∧
      (onSendMessage env st user content chatId).store.messages =
        st.messages ++ [⟨env.newId, user.id, content, chatId, env.now⟩] ∧
      ∃ c ∈ (onSendMessage env st user content chatId).store.chats, c.id = chatId := by
  obtain ⟨hmem, hid⟩ := findChatById_some hchat
  have hkept : ∃ c ∈ st.chats, c.id = chatId := ⟨chat, hmem, hid⟩
  have hsaved : ∃ c ∈ saveChat st.chats
      { chat with latestMessage := some env.newId, updatedAt := env.now }, c.id = chatId := by
    obtain ⟨c, hc, hcid⟩ := saveChat_has_id
      { chat with latestMessage := some env.newId, updatedAt := env.now } hmem rfl
    exact ⟨c, hc, hcid.trans hid⟩
  unfold onSendMessage
  simp only [hfind, hchat, hsave]
  cases env.chatSave <;> cases env.broadcast <;> exact ⟨rfl, rfl, by assumption⟩

theorem populateSender_eq (users : List User) (m : Message) :
    populateSender users m =
      ⟨m.id, (users.find? (fun u => u.id == m.sender)).map (fun u => ⟨m.sender, u.username⟩),
        m.content, m.chat, m.createdAt⟩ := by
  unfold populateSender
  cases h : users.find? (fun u => u.id == m.sender) with
  | none => rfl
  | some u =>
    have hp := List.find?_some h
    simp only [beq_iff_eq] at hp
    simp [hp]

/-- The history of `chatId` in a store that extends the messages of `st` by a
message of that chat. -/
theorem history_of_extended_store {e2 : Env} {st st2 : Store} {chatId : ObjectId}
    {m : Message} (hc : e2.chatFind = none) (hm : e2.msgFind = none)
    (hmc : m.chat = chatId) (husers : st2.users = st.users)
    (hmsgs : st2.messages = st.messages ++ [m])
    (hex : ∃ c ∈ st2.chats, c.id = chatId) :
    ∃ history : List PopulatedMessage,
      (getChatMessages e2 st2 chatId).response = ⟨200, Body.messages history⟩ ∧
        (⟨m.id, (st.users.find? (fun u => u.id == m.sender)).map
            (fun u => ⟨m.sender, u.username⟩), m.content, chatId, m.createdAt⟩ :
          PopulatedMessage) ∈ history ∧
        ∀ old ∈ st.messages, old.chat = chatId →
          (⟨old.id, (st.users.find? (fun u => u.id == old.sender)).map
              (fun u => ⟨old.sender, u.username⟩), old.content, chatId, old.createdAt⟩ :
            PopulatedMessage) ∈ history := by
  rw [getChatMessages_found hc hm hex, husers, hmsgs]
  refine ⟨_, rfl, ?_, ?_⟩
  · rw [List.mem_map]
    exact ⟨m, by simp [hmc], by rw [populateSender_eq, hmc]⟩
  · intro old hold hoc
    rw [List.mem_map]
    exact ⟨old, by simp [hold, hoc], by rw [populateSender_eq, hoc]⟩

/-- C9 (as amended): once the conversation was found and `newMessage.save()`
succeeded in a send by `user` with content `content` to `chatId` (REST handler
or socket handler), whatever the later steps did, a history request
`GET /chats/:chatId/messages` whose reads complete answers 200 with a list that
contains the entry of the new message: its generated id, that content, that
chat, its timestamp, and as sender `{ _id: user.id, username }` with the
username of the sender's user document, `null` when the sender has no user
document.  The list also contains, with the sender populated in the same way,
the entry of every message of the chat that was stored before. -/
theorem written_message_in_history (env e2 : Env) (st : Store) (user : Principal)
    (chatId : ObjectId) (content : String)
    (hfind : env.chatFind = none) (hsave : env.msgSave = none)
    (hc : e2.chatFind = none) (hm : e2.msgFind = none) :
    (∀ chat, findPrivateChatOf st chatId user.id = some chat →
      ∃ history : List PopulatedMessage,
        (getChatMessages e2 (postPrivateMessage env st user chatId content).store
            chatId).response = ⟨200, Body.messages history⟩ ∧
          (⟨env.newId, (st.users.find? (fun u => u.id == user.id)).map
              (fun u => ⟨user.id, u.username⟩), content, chatId, env.now⟩ :
            PopulatedMessage) ∈ history ∧
          ∀ old ∈ st.messages, old.chat = chatId →
            (⟨old.id, (st.users.find? (fun u => u.id == old.sender)).map
                (fun u => ⟨old.sender, u.username⟩), old.content, chatId, old.createdAt⟩ :
              PopulatedMessage) ∈ history) ∧
    (∀ chat, findChatById st chatId = some chat →
      ∃ history : List PopulatedMessage,
        (getChatMessages e2 (onSendMessage env st user content chatId).store
            chatId).response = ⟨200, Body.messages history⟩ ∧
          (⟨env.newId, (st.users.find? (fun u => u.id == user.id)).map
              (fun u => ⟨user.id, u.username⟩), content, chatId, env.now⟩ :
            PopulatedMessage) ∈ history ∧
          ∀ old ∈ st.messages, old.chat = chatId →
            (⟨old.id, (st.users.find? (fun u => u.id == old.sender)).map
                (fun u => ⟨old.sender, u.username⟩), old.content, chatId, old.createdAt⟩ :
              PopulatedMessage) ∈ history) := by
  constructor
  · intro chat hchat
    obtain ⟨hu, hmsgs, hex⟩ :=
      rest_store_after_write env st user chatId content hfind hchat hsave
    exact history_of_extended_store hc hm rfl hu hmsgs hex
  · intro chat hchat
    obtain ⟨hu, hmsgs, hex⟩ :=
      socket_store_after_write env st user chatId content hfind hchat hsave
    exact history_of_extended_store hc hm rfl hu hmsgs hex

/-- C9, witness: chat 10 already has a message of bob; `chat.save()` throws
after alice's "hi" to chat 10 was written.  The history of chat 10 then is
bob's message followed by alice's, each with its sender populated. -/
theorem written_message_in_history_witness :
    chatSaveFails.chatFind = none ∧ chatSaveFails.msgSave = none ∧
      quietEnv.chatFind = none ∧ quietEnv.msgFind = none ∧
      findPrivateChatOf earlierStore 10 alice.id = some ⟨10, false, [1, 2], none, 0⟩ ∧
      (getChatMessages quietEnv (postPrivateMessage chatSaveFails earlierStore alice 10 "hi").store
          10).response =
        ⟨200, Body.messages
          [⟨50, some ⟨2, "bob"⟩, "yo", 10, 3⟩, ⟨100, some ⟨1, "alice"⟩, "hi", 10, 7⟩]⟩ ∧
      ∃ history : List PopulatedMessage,
        (getChatMessages quietEnv (postPrivateMessage chatSaveFails earlierStore alice 10 "hi").store
            10).response = ⟨200, Body.messages history⟩ ∧
          (⟨chatSaveFails.newId, (earlierStore.users.find? (fun u => u.id == alice.id)).map
              (fun u => ⟨alice.id, u.username⟩), "hi", 10, chatSaveFails.now⟩ :
            PopulatedMessage) ∈ history ∧
          ∀ old ∈ earlierStore.messages, old.chat = 10 →
            (⟨old.id, (earlierStore.users.find? (fun u => u.id == old.sender)).map
                (fun u => ⟨old.sender, u.username⟩), old.content, 10, old.createdAt⟩ :
              PopulatedMessage) ∈ history :=
  ⟨by decide, by decide, by decide, by decide, by decide, by decide,
    (written_message_in_history chatSaveFails quietEnv earlierStore alice 10 "hi"
      (by decide) (by decide) (by decide) (by decide)).1 ⟨10, false, [1, 2], none, 0⟩
      (by decide)⟩

/-- C9, counterexample: dave's token carries the user id 4, which has no user
document, and chat 20 has the participants 4 and 1.  His send of "hi" to chat
20 is answered with success and the message (sender 4) is stored; the history
of chat 20 then consists of one entry, the new message with sender `null`: the
list has no entry with sender 4. -/
theorem history_entry_without_sender :
    (∀ u ∈ orphanStore.users, u.id ≠ dave.id) ∧
      postPrivateMessage quietEnv orphanStore dave 20 "hi" =
        ⟨⟨orphanStore.users, [⟨20, false, [4, 1], some 100, 7⟩], [⟨100, 4, "hi", 20, 7⟩], []⟩,
          [Emit.receiveMessage 20 ⟨100, ⟨4, "dave"⟩, "hi", 20, 7⟩,
            Emit.newNotification (some 1) "You have a new message."],
          ⟨200, Body.sent "Message sent successfully" ⟨100, 4, "hi", 20, 7⟩⟩⟩ ∧
      (getChatMessages quietEnv (postPrivateMessage quietEnv orphanStore dave 20 "hi").store
          20).response =
        ⟨200, Body.messages [⟨100, none, "hi", 20, 7⟩]⟩ ∧
      (getChatMessages quietEnv (onSendMessage quietEnv orphanStore dave "hi" 20).store
          20).response =
        ⟨200, Body.messages [⟨100, none, "hi", 20, 7⟩]⟩ := by
  decide

/-! ## C4, C8: what the socket handler leaves out -/

/-- The socket `sendMessage` handler emits no `newNotification`, whatever its input. -/
theorem socket_send_never_notifies (env : Env) (st : Store) (user : Principal)
    (content : String) (chatId : ObjectId) :
    notifiedRooms (onSendMessage env st user content chatId).emits = [] := by
  unfold onSendMessage
  cases env.chatFind <;> cases findChatById st chatId <;> cases env.msgSave <;>
    cases env.chatSave <;> cases env.broadcast <;> rfl

/-- C4, at the failing input: alice sends "hi" to chat 10, whose other
participant is bob (id 2), over the socket.  The handler runs to its end, the
message is stored and broadcast, and no `newNotification` is emitted, however
the participants are stored.  The REST handler, on the same input, does emit
one: keyed by 2 when the participants are stored as strings, and keyed by the
first participant, alice herself, when they are stored as `ObjectId` objects. -/
theorem socket_send_does_not_notify :
    (onSendMessage quietEnv sampleStore alice "hi" 10).completion = Completion.completed ∧
      (onSendMessage quietEnv sampleStore alice "hi" 10).store.messages =
        [⟨100, 1, "hi", 10, 7⟩] ∧
      (onSendMessage quietEnv sampleStore alice "hi" 10).emits =
        [Emit.receiveMessage 10 ⟨100, ⟨1, "alice"⟩, "hi", 10, 7⟩] ∧
      notifiedRooms (onSendMessage quietEnv sampleStore alice "hi" 10).emits = [] ∧
      notifiedRooms (postPrivateMessage quietEnv sampleStore alice 10 "hi").emits = [some 2] ∧
      (onSendMessage quietObjectIdEnv sampleStore alice "hi" 10).emits =
        [Emit.receiveMessage 10 ⟨100, ⟨1, "alice"⟩, "hi", 10, 7⟩] ∧
      notifiedRooms (onSendMessage quietObjectIdEnv sampleStore alice "hi" 10).emits = [] ∧
      notifiedRooms (postPrivateMessage quietObjectIdEnv sampleStore alice 10 "hi").emits =
        [some 1] := by
  decide

/-- C8, at the failing input: alice sends "hi" to chat 10 over the socket and
`newMessage.save()` throws.  Nothing is stored and nothing is emitted: no
`error` event reaches the caller, the exception is only caught.  The same
handler does emit `error` to the caller for an absent conversation, and the
REST handler answers the same failed write with status 500. -/
theorem socket_write_failure_is_silent :
    onSendMessage messageSaveFails sampleStore alice "hi" 10 =
        ⟨sampleStore, [], Completion.caught "write failed"⟩ ∧
      onSendMessage quietEnv sampleStore alice "hi" 99 =
        ⟨sampleStore, [Emit.error "Chat not found"], Completion.chatNotFound⟩ ∧
      postPrivateMessage messageSaveFails sampleStore alice 10 "hi" =
        ⟨sampleStore, [], ⟨500, Body.failure "Something went wrong" "write failed"⟩⟩ := by
  decide

/-- The part of C8 the code does provide: when the conversation is absent or
`newMessage.save()` throws, both handlers leave the store as it was and emit
neither `receiveMessage` nor `newNotification`; the REST handler answers an
absent conversation with 404 and a failed write with 500. -/
theorem abort_before_write_has_no_effect (env : Env) (st : Store) (user : Principal)
    (chatId : ObjectId) (content : String) :
    ((findPrivateChatOf st chatId user.id = none ∨ env.msgSave ≠ none) →
      (postPrivateMessage env st user chatId content).store = st ∧
        (postPrivateMessage env st user chatId content).emits = [] ∧
        (postPrivateMessage env st user chatId content).response.status ≠ 200 ∧
        (env.chatFind = none → findPrivateChatOf st chatId user.id = none →
          (postPrivateMessage env st user chatId content).response =
            ⟨404, Body.message "Chat not found"⟩)) ∧
    ((findChatById st chatId = none ∨ env.msgSave ≠ none) →
      (onSendMessage env st user content chatId).store = st ∧
        receiveMessages (onSendMessage env st user content chatId).emits = [] ∧
        notifiedRooms (onSendMessage env st user content chatId).emits = [] ∧
        (onSendMessage env st user content chatId).completion ≠ Completion.completed) := by
  constructor
  · unfold postPrivateMessage
    cases env.chatFind <;> cases findPrivateChatOf st chatId user.id <;>
      cases env.msgSave <;> simp [serverError]
  · unfold onSendMessage
    cases env.chatFind <;> cases findChatById st chatId <;>
      cases env.msgSave <;> simp [receiveMessages, notifiedRooms]

/-! ## C6: the two authentication entry points -/

theorem jsSplit_no_sep (sep : Char) (l : List Char) (h : sep ∉ l) :
    jsSplit sep l = [l] := by
  induction l with
  | nil => rfl
  | cons c cs ih =>
    have hc : c ≠ sep := fun hcs => h (by simp [hcs])
    have hcs : sep ∉ cs := fun hm => h (List.mem_cons_of_mem _ hm)
    simp [jsSplit, hc, ih hcs]

theorem jsSplit_bearer (t : List Char) :
    jsSplit ' ' ("Bearer ".data ++ t) = "Bearer".data :: jsSplit ' ' t := by
  show jsSplit ' ' ('B' :: 'e' :: 'a' :: 'r' :: 'e' :: 'r' :: ' ' :: t) = _
  cases h : jsSplit ' ' t with
  | nil => simp [jsSplit, h]
  | cons w ws => simp [jsSplit, h]

theorem bearer_isPrefixOf (t : List Char) :
    ("Bearer ".data.isPrefixOf ("Bearer ".data ++ t)) = true := by
  show List.isPrefixOf ['B', 'e', 'a', 'r', 'e', 'r', ' ']
    ('B' :: 'e' :: 'a' :: 'r' :: 'e' :: 'r' :: ' ' :: t) = true
  simp [List.isPrefixOf]

/-- C6 (as amended): for every verifier `verify` and every non-empty
credential `t` without a space character, `authenticate` given the header
`"Bearer " + t` and the socket.io middleware given the query token `t` agree:
both reject, or both accept and attach the same principal. -/
theorem auth_entry_points_agree (verify : String → Option Principal) (t : String)
    (hne : t ≠ "") (hsp : ' ' ∉ t.data) :
    (authenticate verify (some ("Bearer " ++ t))).user? =
      (socketAuthenticate verify (some t)).user? := by
  have hdata : ("Bearer " ++ t).data = "Bearer ".data ++ t.data := String.data_append _ _
  have hhead : ("Bearer " ++ t) ≠ "" := by
    intro h
    have := congrArg String.data h
    rw [hdata] at this
    simp at this
  have hpre : ("Bearer ".data.isPrefixOf ("Bearer " ++ t).data) = true := by
    rw [hdata]
    exact bearer_isPrefixOf _
  have hcond : ¬ (("Bearer " ++ t) = "" ∨
      ("Bearer ".data.isPrefixOf ("Bearer " ++ t).data) = false) := by
    rw [hpre]
    simp [hhead]
  have hsplit : (jsSplit ' ' ("Bearer " ++ t).data)[1]? = some t.data := by
    rw [hdata, jsSplit_bearer, jsSplit_no_sep _ _ hsp]
    rfl
  unfold authenticate socketAuthenticate
  simp only [if_neg hcond, hsplit, if_neg hne]
  show (match verify t with
      | none => AuthResult.rejected 401 "Invalid Token"
      | some user => AuthResult.next user).user? = _
  cases verify t <;> rfl

/-- C6, witness: the credential `tok`. -/
theorem auth_entry_points_agree_witness :
    "tok" ≠ "" ∧ ' ' ∉ "tok".data ∧
      (authenticate onlyTok (some ("Bearer " ++ "tok"))).user? =
        (socketAuthenticate onlyTok (some "tok")).user? :=
  ⟨by decide, by decide, auth_entry_points_agree onlyTok "tok" (by decide) (by decide)⟩

/-- C6, counterexample.  The credential `tok x` has a space: `authenticate`
verifies the part before it and accepts, the socket.io middleware verifies the
whole string and rejects.  The empty credential: `authenticate` hands it to the
verifier, the socket.io middleware rejects it before verifying. -/
theorem auth_entry_points_disagree :
    (authenticate onlyTok (some ("Bearer " ++ "tok x")) = AuthResult.next alice ∧
      socketAuthenticate onlyTok (some "tok x") =
        HandshakeResult.error "Authentication error") ∧
    (authenticate acceptAll (some ("Bearer " ++ "")) = AuthResult.next alice ∧
      socketAuthenticate acceptAll (some "") =
        HandshakeResult.error "Authentication error") := by
  decide

/-! ## C10: the group endpoints -/

/-- C10: `Group` is not among the identifiers `index.js` binds, and each of the
handlers of `POST /groups`, `POST /groups/:groupId/join` and `GET /groups`, for
every request, store and environment, answers status 500 with message
"Something went wrong" (the error being the `ReferenceError`), emits nothing
and leaves the store, its groups included, as it was. -/
theorem group_endpoints_fail (env : Env) (st : Store) (user : Principal)
    (name : String) (groupId : ObjectId) :
    ModelName.Group ∉ boundModels ∧
      postGroups env st user name =
        ⟨st, [], ⟨500, Body.failure "Something went wrong" "Group is not defined"⟩⟩ ∧
      postGroupJoin env st user groupId =
        ⟨st, [], ⟨500, Body.failure "Something went wrong" "Group is not defined"⟩⟩ ∧
      getGroups env st user =
        ⟨st, [], ⟨500, Body.failure "Something went wrong" "Group is not defined"⟩⟩ :=
  ⟨by decide, rfl, rfl, rfl⟩

/-! ## The two-participant shape of private chats is kept -/

/-- The handler of `POST /chats/private` keeps the shape the amended C3 assumes: if every
stored non-group chat has two participants, so has every one afterwards. -/
theorem postPrivateChat_keeps_pairs (env : Env) (st : Store) (user : Principal)
    (recipientId : ObjectId)
    (hinv : ∀ x ∈ st.chats, x.isGroupChat = false → x.users.length = 2) :
    ∀ x ∈ (postPrivateChat env st user recipientId).store.chats,
      x.isGroupChat = false → x.users.length = 2 := by
  unfold postPrivateChat
  cases env.userFind <;> cases st.users.find? (fun u => u.id == recipientId) <;>
    cases env.chatFind <;> cases findChatBetween st user.id recipientId <;>
    cases env.chatSave <;> try exact hinv
  intro x hx hg
  simp only [List.mem_append, List.mem_singleton] at hx
  rcases hx with hx | hx
  · exact hinv x hx hg
  · subst hx
    rfl

end ChatApp
